import Mathlib

/-!
Verification development for the preevy repository.

Shallow embedding of:
* the exec router of the Kubernetes pod driver
  (`packages/driver-kube-pod/src/driver/client/exec/index.ts`),
* the telemetry emitter (`telemetryEmitter` and its `capture` / `identify` /
  `group` / `flush` / `unref` operations),
* a backend adapter modelled from the spec (provision, delete, purge,
  teardown ordering), for the parts of the repository whose implementation
  files are not among the sources at hand,
* the tunnel URL derivation, modelled from the spec.
-/

namespace Preevy

/-! ## Exec router (`exec/index.ts`) -/

/-- Buffered process output (`ProcessOutputBuffers` in the source): a list of
output chunks.  The chunk payloads are irrelevant to the routing logic, so a
chunk is modelled as a `String`. -/
abbrev ProcessOutputBuffers := List String

/-- The options the router inspects (`BaseExecOpts` plus the optional caller
streams).  `stdin` is `true` exactly when the caller attached an input
stream. -/
structure ExecOpts where
  command : List String
  stdin : Bool
deriving Repr, DecidableEq

/-- The result shape `{ code : number; output?: ProcessOutputBuffers }` of the
source.  `output = none` is the interactive shape, `output = some _` the batch
shape. -/
structure ExecResult where
  code : Int
  output : Option ProcessOutputBuffers
deriving Repr, DecidableEq

/-- Abstract behaviour of the remote command: the exit code and the output it
produces for given options.  Quantifying theorems over this captures success
and failure alike. -/
structure RemoteBehavior where
  exitCode : ExecOpts → Int
  producedOutput : ExecOpts → ProcessOutputBuffers

/-- Modelled from the spec: `kubectlExec` (file `exec/kubectl.ts`, not among
the sources at hand) is the interactive path — it streams remote output to the
caller-supplied sinks as it arrives and resolves with only the exit code,
never with buffered output. -/
def kubectlExec (r : RemoteBehavior) (opts : ExecOpts) : ExecResult :=
  { code := r.exitCode opts, output := none }

/-- Modelled from the spec: `apiExec` (file `exec/api.ts`, not among the
sources at hand) is the batch path — it buffers remote output in memory and
resolves with the exit code plus the buffered output. -/
def apiExec (r : RemoteBehavior) (opts : ExecOpts) : ExecResult :=
  { code := r.exitCode opts, output := some (r.producedOutput opts) }

/-- The exec router from `exec/index.ts`:
`return (opts.stdin ? kExec : aExec)(opts)`. -/
def exec (r : RemoteBehavior) (opts : ExecOpts) : ExecResult :=
  (if opts.stdin then kubectlExec r else apiExec r) opts

/-- A remote behaviour used by concrete witnesses. -/
def demoRemote : RemoteBehavior :=
  { exitCode := fun _ => 0, producedOutput := fun _ => ["line"] }

/-- A second remote behaviour (a failing command) used by witnesses. -/
def demoRemoteFail : RemoteBehavior :=
  { exitCode := fun _ => 1, producedOutput := fun _ => [] }

/-- Options with an attached input stream. -/
def demoOptsIn : ExecOpts := { command := ["sh"], stdin := true }

/-- Options without an input stream. -/
def demoOptsBatch : ExecOpts := { command := ["ls"], stdin := false }

/-! ## Backend adapter (modelled from the spec)

The adapter implementations (lightsail, gce, fake) are not among the sources
at hand; the following state machine is modelled from the spec contract in
sections 4.1, 6 and 7 of the spec. -/

/-- The discriminator of the `DeletableResource` tagged union. -/
inductive ResourceKind where
  | machineKind
  | snapshotKind
  | keyPairKind
deriving Repr, DecidableEq

/-- A provisioned machine: backend-native id, owning environment id, and the
key pair it authenticates with. -/
structure Machine where
  nativeId : Nat
  envId : String
  keyPairId : Nat
deriving Repr, DecidableEq

/-- A provider-side snapshot. -/
structure Snapshot where
  nativeId : Nat
  envId : String
deriving Repr, DecidableEq

/-- A provider-side key pair handle. -/
structure KeyPair where
  nativeId : Nat
deriving Repr, DecidableEq

/-- The tagged union over machines, snapshots and key pairs: a discriminator
plus the per-kind opaque backend id. -/
structure DeletableResource where
  kind : ResourceKind
  nativeId : Nat
deriving Repr, DecidableEq

/-- The provider-side account state an adapter operates on. -/
structure AdapterState where
  machines : List Machine
  snapshots : List Snapshot
  keyPairs : List KeyPair
  nextId : Nat
deriving Repr, DecidableEq

/-- Modelled from the spec: `provision(environmentId)` is idempotent with
respect to the environment id — if a live machine for the environment exists
it is returned, otherwise a machine (and, when none exists yet, the single
active key pair) is created. -/
def provision (s : AdapterState) (envId : String) : AdapterState × Machine :=
  match s.machines.find? (fun m => m.envId == envId) with
  | some m => (s, m)
  | none =>
    match s.keyPairs.head? with
    | some kp =>
      let m : Machine := ⟨s.nextId, envId, kp.nativeId⟩
      ({ s with machines := m :: s.machines, nextId := s.nextId + 1 }, m)
    | none =>
      let kp : KeyPair := ⟨s.nextId⟩
      let m : Machine := ⟨s.nextId + 1, envId, kp.nativeId⟩
      ({ s with
          machines := m :: s.machines
          keyPairs := [kp]
          nextId := s.nextId + 2 }, m)

/-- `listDeletableResources`: all provider resources of the account,
normalized to the tagged-union shape. -/
def listDeletableResources (s : AdapterState) : List DeletableResource :=
  s.machines.map (fun m => ⟨.machineKind, m.nativeId⟩)
    ++ s.snapshots.map (fun x => ⟨.snapshotKind, x.nativeId⟩)
    ++ s.keyPairs.map (fun k => ⟨.keyPairKind, k.nativeId⟩)

/-- Whether the account currently holds the resource. -/
def hasResource (s : AdapterState) (r : DeletableResource) : Bool :=
  (listDeletableResources s).contains r

/-- Removes the resource from the account state. -/
def removeResource (s : AdapterState) (r : DeletableResource) : AdapterState :=
  match r.kind with
  | .machineKind =>
    { s with machines := s.machines.filter (fun m => m.nativeId != r.nativeId) }
  | .snapshotKind =>
    { s with snapshots := s.snapshots.filter (fun x => x.nativeId != r.nativeId) }
  | .keyPairKind =>
    { s with keyPairs := s.keyPairs.filter (fun k => k.nativeId != r.nativeId) }

/-- The error kinds of the delete flow. -/
inductive DeleteError where
  | notFound
deriving Repr, DecidableEq

/-- Modelled from the spec: `deleteResource` deletes a resource of any kind
through one interface; deleting an already-absent resource succeeds silently
as a no-op when `force` is set and fails with a not-found error otherwise. -/
def deleteResource (s : AdapterState) (r : DeletableResource) (force : Bool) :
    Except DeleteError AdapterState :=
  if hasResource s r then .ok (removeResource s r)
  else if force then .ok s
  else .error .notFound

/-- The independent purge kind selectors plus the `all` shorthand. -/
structure PurgeFlags where
  machines : Bool
  snapshots : Bool
  keyPairs : Bool
  all : Bool
deriving Repr, DecidableEq

/-- Whether a resource kind is selected by the purge flags. -/
def kindSelected (f : PurgeFlags) : ResourceKind → Bool
  | .machineKind => f.all || f.machines
  | .snapshotKind => f.all || f.snapshots
  | .keyPairKind => f.all || f.keyPairs

/-- The outcome report of a purge: how many resources were affected and how
many per-resource failures were collected. -/
structure PurgeReport where
  affected : Nat
  failed : Nat
deriving Repr, DecidableEq

/-- Modelled from the spec: purge deletes every provider resource whose kind
is selected by the flags, collecting per-resource failures instead of
aborting, and reports the number of affected resources. -/
def purge (s : AdapterState) (f : PurgeFlags) : AdapterState × PurgeReport :=
  let victims :=
    (listDeletableResources s).filter (fun r => kindSelected f r.kind)
  victims.foldl
    (fun acc r =>
      match deleteResource acc.1 r true with
      | .ok s2 => (s2, { acc.2 with affected := acc.2.affected + 1 })
      | .error _ => (acc.1, { acc.2 with failed := acc.2.failed + 1 }))
    (s, ⟨0, 0⟩)

/-! ## Tunnel URL derivation (modelled from the spec) -/

/-- Modelled from the spec: the relay returns a deterministic public hostname
per `(environmentId, service, port)` tuple; the tunnel client code is not
among the sources at hand, so the URL is modelled as a pure function of the
tuple plus the fixed relay host. -/
def tunnelUrl (relayHost envId service : String) (port : Nat) : String :=
  "https://" ++ service ++ "-" ++ toString port ++ "-" ++ envId
    ++ "." ++ relayHost

/-- Modelled from the spec: `up` registers one binding per declared service
port and returns the mapping from (service, port) to its public URL. -/
def upUrls (relayHost envId : String) (services : List (String × Nat)) :
    List ((String × Nat) × String) :=
  services.map (fun sp => (sp, tunnelUrl relayHost envId sp.1 sp.2))

/-! ## Teardown ordering (modelled from the spec) -/

/-- One observable action of the teardown flow of an environment. -/
inductive TeardownStep where
  | closeTunnel
  | deleteMachine (id : Nat)
  | deleteSnapshot (id : Nat)
  | deleteKeyPair (id : Nat)
deriving Repr, DecidableEq

/-- Whether the step deletes a machine. -/
def isDeleteMachine : TeardownStep → Bool
  | .deleteMachine _ => true
  | _ => false

/-- Whether the step deletes a dependency of a machine (a snapshot or a key
pair). -/
def isDeleteDependency : TeardownStep → Bool
  | .deleteSnapshot _ => true
  | .deleteKeyPair _ => true
  | _ => false

/-- Modelled from the spec: the teardown (`down`) flow of one environment
closes the tunnel session first, then deletes the environment machines, and
only then deletes the snapshots and key pairs they depended on; a key pair
still referenced by a machine that remains live is kept. -/
def teardown (s : AdapterState) (e : String) : List TeardownStep :=
  TeardownStep.closeTunnel ::
    ((s.machines.filter (fun m => m.envId == e)).map
        (fun m => TeardownStep.deleteMachine m.nativeId)
      ++ ((s.snapshots.filter (fun x => x.envId == e)).map
            (fun x => TeardownStep.deleteSnapshot x.nativeId)
          ++ (s.keyPairs.filter (fun k =>
                (s.machines.filter (fun m => m.envId != e)).all
                  (fun m => m.keyPairId != k.nativeId))).map
              (fun k => TeardownStep.deleteKeyPair k.nativeId)))

/-- A machine of the environment being torn down, for concrete witnesses. -/
def machineA : Machine := ⟨1, "proj-a", 7⟩

/-- A machine of another environment, for concrete witnesses. -/
def machineB : Machine := ⟨2, "proj-b", 8⟩

/-- An account holding two machines and their two key pairs. -/
def sDemo : AdapterState := ⟨[machineA, machineB], [], [⟨7⟩, ⟨8⟩], 9⟩

/-! ## Telemetry emitter (`telemetryEmitter` in the source) -/

/-- Which operation pushed an event.  This is instrumentation of the
embedding (not a field of the source event record), used to state provenance
properties about the queue contents. -/
inductive EventSource where
  | captureSrc
  | identifySrc
  | groupSrc
deriving Repr, DecidableEq

/-- A telemetry event as pushed on the pending queue.  Of the source record,
the fields the verified properties concern are kept: the event name and the
`distinct_id`.  The property payloads (common properties, `$set`, `$groups`,
timestamps) are elided; `src` is embedding instrumentation. -/
structure TelemetryEvent where
  event : String
  distinct_id : String
  src : EventSource
deriving Repr, DecidableEq

/-- The closure state of one `telemetryEmitter`, plus instrumentation of the
asynchronous environment: `sentRequests` records the batches submitted over
the network, `loggedErrors` counts the failure log lines,
`debounceScheduled` records a pending debounced flush and
`immediateFlushPending` a started fire-and-forget `void flush()` that has not
run yet. -/
structure EmitterState where
  machineId : String
  distinctId : String
  profileGroupId : Option String
  pendingEvents : List TelemetryEvent
  debounceDisabled : Bool
  debounceScheduled : Bool
  immediateFlushPending : Bool
  sentRequests : List (List TelemetryEvent)
  loggedErrors : Nat
  debug : Bool
deriving Repr, DecidableEq

/-- A fresh emitter: `distinctId` starts as the machine id, the queue is
empty, debouncing is enabled. -/
def initEmitter (machineId : String) (debug : Bool) : EmitterState :=
  { machineId := machineId
    distinctId := machineId
    profileGroupId := none
    pendingEvents := []
    debounceDisabled := false
    debounceScheduled := false
    immediateFlushPending := false
    sentRequests := []
    loggedErrors := 0
    debug := debug }

/-- `pushEvent` from the source: appends the event to the pending queue and
requests a flush — the fire-and-forget `void flush()` when debouncing was
disabled by `unref`, the debounced `void debouncedFlush()` otherwise.  No
network request is made here; the send happens when the requested flush
runs. -/
def pushEvent (s : EmitterState) (e : TelemetryEvent) : EmitterState :=
  let s2 := { s with pendingEvents := s.pendingEvents ++ [e] }
  if s2.debounceDisabled then { s2 with immediateFlushPending := true }
  else { s2 with debounceScheduled := true }

/-- The first phase of the `flush` closure: if the queue is empty, return
without making a network request; otherwise serialize the whole queue as one
batch, clear the queue, and issue the network request (this happens before
the response arrives).  Returns the submitted batch, if any. -/
def flushStart (s : EmitterState) :
    EmitterState × Option (List TelemetryEvent) :=
  if s.pendingEvents.isEmpty then (s, none)
  else
    ({ s with
        pendingEvents := []
        sentRequests := s.sentRequests ++ [s.pendingEvents] },
      some s.pendingEvents)

/-- The second phase of the `flush` closure: the response arrives.  A non-ok
response is only written to the debug log; nothing is re-queued and the batch
is not retried. -/
def flushComplete (s : EmitterState) (batch : Option (List TelemetryEvent))
    (ok : Bool) : EmitterState :=
  match batch with
  | none => s
  | some _ =>
    if !ok && s.debug then { s with loggedErrors := s.loggedErrors + 1 }
    else s

/-- One whole run of the `flush` closure, for a given response outcome. -/
def runFlush (s : EmitterState) (ok : Bool) : EmitterState :=
  flushComplete (flushStart s).1 (flushStart s).2 ok

/-- The public `flush()` of the emitter: cancels the pending debounced flush,
then runs the `flush` closure and awaits it. -/
def flushOp (s : EmitterState) (ok : Bool) : EmitterState :=
  runFlush { s with debounceScheduled := false } ok

/-- `capture(event, props)` from the source: pushes an event whose
`distinct_id` is the machine id captured at emitter creation — not the
current distinct id. -/
def capture (s : EmitterState) (event : String) : EmitterState :=
  pushEvent s { event := event, distinct_id := s.machineId, src := .captureSrc }

/-- `identify` from the source: `id = some i` models `identify(i, person)` and
`id = none` models `identify(person)`; `personHasKeys` is whether the person
properties object has any keys.  When the id changes or person properties
were given, a `$identify` event is pushed with `id ?? distinctId` as its
distinct id (a nullish coalescing: an empty-string id is used as is);
afterwards, the final `if (id) { distinctId = id }` is a JS truthiness test,
so only a nonempty given id becomes the current distinct id. -/
def identify (s : EmitterState) (id : Option String) (personHasKeys : Bool) :
    EmitterState :=
  let shouldLinkToNewId : Bool := id != some s.distinctId
  let s2 :=
    if shouldLinkToNewId || personHasKeys then
      pushEvent s
        { event := "$identify", distinct_id := id.getD s.distinctId,
          src := .identifySrc }
    else s
  match id with
  | some i => if i != "" then { s2 with distinctId := i } else s2
  | none => s2

/-- `group({type, id}, props)` from the source, for the single group type
`profile`.  Both guards are JS truthiness tests: `if (groupId)` records the
given id as the profile group identity only when it is nonempty, and
`if (currentGroupId)` pushes a `$groupidentify` event, with the current
distinct id, only when the (possibly just recorded) group identity is
nonempty. -/
def group (s : EmitterState) (id : Option String) : EmitterState :=
  let groupId :=
    match id with
    | some g => if g != "" then some g else s.profileGroupId
    | none => s.profileGroupId
  let s2 := { s with profileGroupId := groupId }
  match groupId with
  | some g =>
    if g != "" then
      pushEvent s2
        { event := "$groupidentify", distinct_id := s2.distinctId,
          src := .groupSrc }
    else s2
  | none => s2

/-- `unref()` from the source: disables debouncing and cancels the pending
debounced flush, without flushing. -/
def unref (s : EmitterState) : EmitterState :=
  { s with debounceDisabled := true, debounceScheduled := false }

/-- One step of the asynchronous execution of the emitter: an API call, the
debounce timer firing, or a previously started fire-and-forget flush running
(each flush run carries the network response outcome it will observe). -/
inductive TelemetryOp where
  | captureOp (event : String)
  | identifyOp (id : Option String) (personHasKeys : Bool)
  | groupOp (id : Option String)
  | unrefOp
  | flushCallOp (ok : Bool)
  | timerFireOp (ok : Bool)
  | asyncFlushOp (ok : Bool)
deriving Repr, DecidableEq

/-- The transition function of the emitter under one operation. -/
def step (s : EmitterState) : TelemetryOp → EmitterState
  | .captureOp ev => capture s ev
  | .identifyOp id pk => identify s id pk
  | .groupOp id => group s id
  | .unrefOp => unref s
  | .flushCallOp ok => flushOp s ok
  | .timerFireOp ok =>
    if s.debounceScheduled then
      runFlush { s with debounceScheduled := false } ok
    else s
  | .asyncFlushOp ok =>
    if s.immediateFlushPending then
      runFlush { s with immediateFlushPending := false } ok
    else s

/-- Running a sequence of operations. -/
def runOps (s : EmitterState) (ops : List TelemetryOp) : EmitterState :=
  ops.foldl step s

/-- All events the emitter ever held: the pending queue plus every batch
submitted over the network. -/
def allEvents (s : EmitterState) : List TelemetryEvent :=
  s.pendingEvents ++ s.sentRequests.flatten

end Preevy

namespace Preevy

/-! ### Frame lemmas about the emitter operations -/

/-- `pushEvent` only appends the event to the queue and flips flush-request
flags: the submitted requests, machine id and distinct id are untouched. -/
theorem pushEvent_fields (s : EmitterState) (e : TelemetryEvent) :
    (pushEvent s e).pendingEvents = s.pendingEvents ++ [e]
    ∧ (pushEvent s e).sentRequests = s.sentRequests
    ∧ (pushEvent s e).machineId = s.machineId
    ∧ (pushEvent s e).distinctId = s.distinctId := by
  simp only [pushEvent]
  split <;> exact ⟨rfl, rfl, rfl, rfl⟩

/-- `flushComplete` only logs: queue, submitted requests and machine id are
untouched. -/
theorem flushComplete_fields (s : EmitterState)
    (b : Option (List TelemetryEvent)) (ok : Bool) :
    (flushComplete s b ok).pendingEvents = s.pendingEvents
    ∧ (flushComplete s b ok).sentRequests = s.sentRequests
    ∧ (flushComplete s b ok).machineId = s.machineId := by
  cases b with
  | none => exact ⟨rfl, rfl, rfl⟩
  | some l =>
    simp only [flushComplete]
    split <;> exact ⟨rfl, rfl, rfl⟩

/-- A flush run on an empty queue does nothing. -/
theorem runFlush_empty (s : EmitterState) (ok : Bool)
    (h : s.pendingEvents = []) : runFlush s ok = s := by
  unfold runFlush flushStart
  simp [h, flushComplete]

/-- A flush run on a nonempty queue clears the queue and submits exactly the
queued events as one batch, whatever the response outcome. -/
theorem runFlush_nonempty (s : EmitterState) (ok : Bool)
    (h : ¬ s.pendingEvents = []) :
    (runFlush s ok).pendingEvents = []
    ∧ (runFlush s ok).sentRequests = s.sentRequests ++ [s.pendingEvents]
    ∧ (runFlush s ok).machineId = s.machineId := by
  have hne : s.pendingEvents.isEmpty = false := by
    simp [List.isEmpty_iff, h]
  have hfs : flushStart s =
      ({ s with
          pendingEvents := []
          sentRequests := s.sentRequests ++ [s.pendingEvents] },
        some s.pendingEvents) := by
    unfold flushStart
    simp [hne]
  unfold runFlush
  rw [hfs]
  rcases flushComplete_fields
      { s with
          pendingEvents := []
          sentRequests := s.sentRequests ++ [s.pendingEvents] }
      (some s.pendingEvents) ok with ⟨hp, hs, hm⟩
  exact ⟨hp, hs, hm⟩

/-- The machine id is never changed by a flush run. -/
theorem runFlush_machineId (s : EmitterState) (ok : Bool) :
    (runFlush s ok).machineId = s.machineId := by
  by_cases h : s.pendingEvents = []
  · rw [runFlush_empty s ok h]
  · exact (runFlush_nonempty s ok h).2.2

/-- `identify` never touches the submitted requests. -/
theorem identify_sentRequests (s : EmitterState) (id : Option String)
    (pk : Bool) : (identify s id pk).sentRequests = s.sentRequests := by
  cases id <;> simp only [identify]
  all_goals repeat' split
  all_goals first
    | exact (pushEvent_fields s _).2.1
    | rfl

/-- `group` never touches the submitted requests. -/
theorem group_sentRequests (s : EmitterState) (id : Option String) :
    (group s id).sentRequests = s.sentRequests := by
  cases id <;> simp only [group]
  all_goals cases s.profileGroupId
  all_goals repeat' split
  all_goals first
    | exact (pushEvent_fields _ _).2.1
    | rfl

/-- `identify` either leaves the queue alone or appends one `$identify` event
carrying `id ?? distinctId`. -/
theorem identify_pendingEvents (s : EmitterState) (id : Option String)
    (pk : Bool) :
    (identify s id pk).pendingEvents = s.pendingEvents
    ∨ (identify s id pk).pendingEvents =
        s.pendingEvents ++
          [⟨"$identify", id.getD s.distinctId, EventSource.identifySrc⟩] := by
  cases id <;> simp only [identify]
  all_goals repeat' split
  all_goals first
    | exact Or.inr (pushEvent_fields s _).1
    | exact Or.inl rfl

/-- `identify` never touches the machine id. -/
theorem identify_machineId (s : EmitterState) (id : Option String)
    (pk : Bool) : (identify s id pk).machineId = s.machineId := by
  cases id <;> simp only [identify]
  all_goals repeat' split
  all_goals first
    | exact (pushEvent_fields s _).2.2.1
    | rfl

/-- `group` either leaves the queue alone or appends one `$groupidentify`
event carrying the current distinct id. -/
theorem group_pendingEvents (s : EmitterState) (id : Option String) :
    (group s id).pendingEvents = s.pendingEvents
    ∨ (group s id).pendingEvents =
        s.pendingEvents ++
          [⟨"$groupidentify", s.distinctId, EventSource.groupSrc⟩] := by
  cases id <;> simp only [group]
  all_goals cases s.profileGroupId
  all_goals repeat' split
  all_goals first
    | exact Or.inr (pushEvent_fields _ _).1
    | exact Or.inl rfl

/-- `group` never touches the machine id. -/
theorem group_machineId (s : EmitterState) (id : Option String) :
    (group s id).machineId = s.machineId := by
  cases id <;> simp only [group]
  all_goals cases s.profileGroupId
  all_goals repeat' split
  all_goals first
    | exact (pushEvent_fields _ _).2.2.1
    | rfl

/-- No operation of the emitter changes the machine id it was created
with. -/
theorem step_machineId (s : EmitterState) (op : TelemetryOp) :
    (step s op).machineId = s.machineId := by
  cases op with
  | captureOp ev => exact (pushEvent_fields s _).2.2.1
  | identifyOp id pk => exact identify_machineId s id pk
  | groupOp id => exact group_machineId s id
  | unrefOp => rfl
  | flushCallOp ok => exact runFlush_machineId _ ok
  | timerFireOp ok =>
    simp only [step]
    split
    · exact runFlush_machineId _ ok
    · rfl
  | asyncFlushOp ok =>
    simp only [step]
    split
    · exact runFlush_machineId _ ok
    · rfl

/-- The events held after `pushEvent` are the old ones plus the pushed
one. -/
theorem mem_allEvents_pushEvent (s : EmitterState) (e x : TelemetryEvent) :
    x ∈ allEvents (pushEvent s e) ↔ x ∈ allEvents s ∨ x = e := by
  rcases pushEvent_fields s e with ⟨hp, hs, _, _⟩
  unfold allEvents
  rw [hp, hs]
  simp only [List.append_assoc, List.mem_append, List.mem_singleton]
  tauto

/-- A flush run moves events from the queue into a submitted batch but never
creates or loses events. -/
theorem mem_allEvents_runFlush (s : EmitterState) (ok : Bool)
    (x : TelemetryEvent) :
    x ∈ allEvents (runFlush s ok) ↔ x ∈ allEvents s := by
  by_cases h : s.pendingEvents = []
  · rw [runFlush_empty s ok h]
  · rcases runFlush_nonempty s ok h with ⟨hp, hs, _⟩
    unfold allEvents
    rw [hp, hs]
    simp only [List.flatten_append, List.flatten_cons, List.flatten_nil,
      List.append_nil, List.nil_append, List.mem_append]
    tauto

/-- Any event present after one step was already present, or is a capture
event carrying the machine id, or was produced by `identify` or `group`. -/
theorem mem_allEvents_step (s : EmitterState) (op : TelemetryOp)
    (x : TelemetryEvent) (hx : x ∈ allEvents (step s op)) :
    x ∈ allEvents s
    ∨ (∃ ev, op = TelemetryOp.captureOp ev
        ∧ x = ⟨ev, s.machineId, EventSource.captureSrc⟩)
    ∨ x.src = EventSource.identifySrc
    ∨ x.src = EventSource.groupSrc := by
  cases op with
  | captureOp ev =>
    rcases (mem_allEvents_pushEvent s _ x).1 hx with h | h
    · exact Or.inl h
    · exact Or.inr (Or.inl ⟨ev, rfl, h⟩)
  | identifyOp id pk =>
    simp only [step] at hx
    rcases identify_pendingEvents s id pk with h | h
    · left
      unfold allEvents at hx ⊢
      rwa [h, identify_sentRequests] at hx
    · unfold allEvents at hx ⊢
      rw [h, identify_sentRequests] at hx
      simp only [List.append_assoc, List.mem_append, List.mem_singleton] at hx
      rcases hx with h2 | h2 | h2
      · exact Or.inl (List.mem_append.2 (Or.inl h2))
      · subst h2
        exact Or.inr (Or.inr (Or.inl rfl))
      · exact Or.inl (List.mem_append.2 (Or.inr h2))
  | groupOp id =>
    simp only [step] at hx
    rcases group_pendingEvents s id with h | h
    · left
      unfold allEvents at hx ⊢
      rwa [h, group_sentRequests] at hx
    · unfold allEvents at hx ⊢
      rw [h, group_sentRequests] at hx
      simp only [List.append_assoc, List.mem_append, List.mem_singleton] at hx
      rcases hx with h2 | h2 | h2
      · exact Or.inl (List.mem_append.2 (Or.inl h2))
      · subst h2
        exact Or.inr (Or.inr (Or.inr rfl))
      · exact Or.inl (List.mem_append.2 (Or.inr h2))
  | unrefOp => exact Or.inl hx
  | flushCallOp ok =>
    exact Or.inl ((mem_allEvents_runFlush { s with debounceScheduled := false }
      ok x).1 hx)
  | timerFireOp ok =>
    simp only [step] at hx
    split at hx
    · exact Or.inl ((mem_allEvents_runFlush
        { s with debounceScheduled := false } ok x).1 hx)
    · exact Or.inl hx
  | asyncFlushOp ok =>
    simp only [step] at hx
    split at hx
    · exact Or.inl ((mem_allEvents_runFlush
        { s with immediateFlushPending := false } ok x).1 hx)
    · exact Or.inl hx

/-- The machine-id invariant: along any run, every capture-sourced event
carries the machine id. -/
theorem runOps_capture_inv (mid : String) (s : EmitterState)
    (ops : List TelemetryOp) (h1 : s.machineId = mid)
    (h2 : ∀ e ∈ allEvents s,
      e.src = EventSource.captureSrc → e.distinct_id = mid) :
    (runOps s ops).machineId = mid
    ∧ ∀ e ∈ allEvents (runOps s ops),
        e.src = EventSource.captureSrc → e.distinct_id = mid := by
  induction ops generalizing s with
  | nil => exact ⟨h1, h2⟩
  | cons op rest ih =>
    refine ih (step s op) ?_ ?_
    · rw [step_machineId]
      exact h1
    · intro e he hsrc
      rcases mem_allEvents_step s op e he with h | ⟨ev, _, rfl⟩ | h | h
      · exact h2 e h hsrc
      · exact h1
      · rw [h] at hsrc
        cases hsrc
      · rw [h] at hsrc
        cases hsrc

/-- C1: the exec router routes to the interactive path exactly when an input
stream is attached and to the batch path otherwise; with an input stream the
result is the interactive shape (exit code only, no buffered output), without
one it is the batch shape (exit code plus buffered output); the shape is a
function solely of input-stream presence, never of the remote behaviour
(success or failure). -/
theorem exec_routes_on_stdin_and_shape
    (r r2 : RemoteBehavior) (opts opts2 : ExecOpts) :
    (opts.stdin = true →
      exec r opts = kubectlExec r opts ∧ (exec r opts).output = none)
    ∧ (opts.stdin = false →
      exec r opts = apiExec r opts ∧
        (exec r opts).output = some (r.producedOutput opts))
    ∧ (opts.stdin = opts2.stdin →
      ((exec r opts).output = none ↔ (exec r2 opts2).output = none)) := by
  refine ⟨fun h => ?_, fun h => ?_, fun h => ?_⟩
  · simp [exec, h, kubectlExec]
  · simp [exec, h, apiExec]
  · cases hs : opts.stdin <;>
      simp [exec, hs, h ▸ hs, kubectlExec, apiExec]

/-- Witness for C1 at concrete inputs: an interactive request against a
succeeding remote yields no buffered output, a batch request against a failing
remote yields buffered output, and the two shapes agree across remotes when
stdin presence agrees. -/
theorem exec_routes_on_stdin_and_shape_witness :
    (exec demoRemote demoOptsIn).output = none
    ∧ (exec demoRemoteFail demoOptsBatch).output =
        some (demoRemoteFail.producedOutput demoOptsBatch)
    ∧ ((exec demoRemote demoOptsIn).output = none ↔
        (exec demoRemoteFail demoOptsIn).output = none) :=
  ⟨((exec_routes_on_stdin_and_shape demoRemote demoRemote demoOptsIn
      demoOptsIn).1 rfl).2,
   ((exec_routes_on_stdin_and_shape demoRemoteFail demoRemoteFail demoOptsBatch
      demoOptsBatch).2.1 rfl).2,
   (exec_routes_on_stdin_and_shape demoRemote demoRemoteFail demoOptsIn
      demoOptsIn).2.2 rfl⟩

/-- C2: calling `provision` twice for the same environment id without an
intervening delete returns the same machine both times, and the second call
leaves the account state unchanged (no duplicate is created). -/
theorem provision_idempotent (s : AdapterState) (e : String) :
    (provision (provision s e).1 e).2 = (provision s e).2
    ∧ (provision (provision s e).1 e).1 = (provision s e).1 := by
  cases hf : s.machines.find? (fun m => m.envId == e) with
  | some m =>
    have h1 : provision s e = (s, m) := by
      unfold provision; rw [hf]
    rw [h1]
    unfold provision; rw [hf]
    exact ⟨rfl, rfl⟩
  | none =>
    cases hk : s.keyPairs.head? with
    | some kp =>
      have h1 : provision s e =
          ({ s with
              machines := ⟨s.nextId, e, kp.nativeId⟩ :: s.machines
              nextId := s.nextId + 1 }, ⟨s.nextId, e, kp.nativeId⟩) := by
        unfold provision; rw [hf, hk]
      rw [h1]
      unfold provision
      simp [List.find?]
    | none =>
      have h1 : provision s e =
          ({ s with
              machines := ⟨s.nextId + 1, e, s.nextId⟩ :: s.machines
              keyPairs := [⟨s.nextId⟩]
              nextId := s.nextId + 2 }, ⟨s.nextId + 1, e, s.nextId⟩) := by
        unfold provision; rw [hf, hk]
      rw [h1]
      unfold provision
      simp [List.find?]

/-- C3: for a resource the account does not hold, `deleteResource` with force
succeeds as a no-op, and without force fails with a not-found error — for
every resource kind through the one shared interface. -/
theorem deleteResource_absent (s : AdapterState) (r : DeletableResource)
    (h : hasResource s r = false) :
    deleteResource s r true = .ok s
    ∧ deleteResource s r false = .error .notFound := by
  unfold deleteResource
  rw [h]
  exact ⟨rfl, rfl⟩

/-- Witness for C3: deleting a machine resource absent from an empty account
is a forced no-op and an unforced not-found error. -/
theorem deleteResource_absent_witness :
    deleteResource ⟨[], [], [], 0⟩ ⟨.machineKind, 3⟩ true = .ok ⟨[], [], [], 0⟩
    ∧ deleteResource ⟨[], [], [], 0⟩ ⟨.machineKind, 3⟩ false =
        .error .notFound :=
  deleteResource_absent ⟨[], [], [], 0⟩ ⟨.machineKind, 3⟩ (by decide)

/-- C4: purging with none of the kind selectors set (machines, snapshots, key
pairs, all) deletes nothing, leaves the account state unchanged, and reports
zero affected resources and zero failures. -/
theorem purge_no_flags_noop (s : AdapterState) :
    purge s ⟨false, false, false, false⟩ = (s, ⟨0, 0⟩) := by
  have h : ∀ r : DeletableResource,
      kindSelected ⟨false, false, false, false⟩ r.kind = false := by
    intro r; cases hr : r.kind <;> rfl
  unfold purge
  rw [List.filter_eq_nil_iff.2 (fun r _ => by simp [h r])]
  rfl

/-- C5: the public tunnel URL is a deterministic function of
(environmentId, serviceName, port): repeated `up` invocations for the same
tuple yield the same URLs, and two different environment ids yield distinct
URLs for the same service and port. -/
theorem tunnelUrl_deterministic_and_env_distinct
    (relay e1 e2 svc : String) (port : Nat)
    (services : List (String × Nat)) :
    upUrls relay e1 services = upUrls relay e1 services
    ∧ (e1 ≠ e2 →
        tunnelUrl relay e1 svc port ≠ tunnelUrl relay e2 svc port) := by
  refine ⟨rfl, fun hne heq => hne (String.ext ?_)⟩
  have h := congrArg String.data heq
  simp only [tunnelUrl, String.data_append, List.append_assoc] at h
  exact List.append_cancel_right
    (List.append_cancel_left (List.append_cancel_left
      (List.append_cancel_left (List.append_cancel_left
        (List.append_cancel_left h)))))

/-- Witness for C5: two concrete environment ids give distinct URLs for the
same service and port. -/
theorem tunnelUrl_deterministic_and_env_distinct_witness :
    tunnelUrl "livecycle.run" "proj-abc" "web" 8080 ≠
      tunnelUrl "livecycle.run" "proj-xyz" "web" 8080 :=
  (tunnelUrl_deterministic_and_env_distinct "livecycle.run" "proj-abc"
    "proj-xyz" "web" 8080 []).2 (by decide)

/-- C6: in every teardown of one environment the tunnel session is closed
before any machine is deleted, every machine deletion precedes every
snapshot/key-pair deletion, and a key pair still referenced by a machine
outside the environment (which remains live) is never deleted. -/
theorem teardown_ordering (s : AdapterState) (e : String) :
    (∃ mSteps dSteps,
      teardown s e = TeardownStep.closeTunnel :: (mSteps ++ dSteps)
      ∧ (∀ x ∈ mSteps, isDeleteMachine x = true)
      ∧ (∀ x ∈ dSteps, isDeleteDependency x = true))
    ∧ (∀ k, TeardownStep.deleteKeyPair k ∈ teardown s e →
        ∀ m ∈ s.machines, m.envId ≠ e → m.keyPairId ≠ k) := by
  constructor
  · refine ⟨_, _, rfl, ?_, ?_⟩
    · intro x hx
      obtain ⟨m, _, rfl⟩ := List.mem_map.1 hx
      rfl
    · intro x hx
      rcases List.mem_append.1 hx with h | h
      · obtain ⟨x2, _, rfl⟩ := List.mem_map.1 h
        rfl
      · obtain ⟨k2, _, rfl⟩ := List.mem_map.1 h
        rfl
  · intro k hk m hm hne
    rcases List.mem_cons.1 hk with h | h
    · exact absurd h (by simp)
    rcases List.mem_append.1 h with h | h
    · obtain ⟨m2, _, heq⟩ := List.mem_map.1 h
      exact absurd heq (by simp)
    rcases List.mem_append.1 h with h | h
    · obtain ⟨x2, _, heq⟩ := List.mem_map.1 h
      exact absurd heq (by simp)
    · obtain ⟨k2, hk2, heq⟩ := List.mem_map.1 h
      have hkid : k2.nativeId = k := by
        injection heq
      obtain ⟨hk2mem, hpred⟩ := List.mem_filter.1 hk2
      have hmf : m ∈ s.machines.filter (fun m => m.envId != e) :=
        List.mem_filter.2 ⟨hm, by simp [hne]⟩
      have hall := List.all_eq_true.1 hpred m hmf
      simp only [bne_iff_ne, ne_eq, decide_eq_true_eq] at hall
      exact hkid ▸ hall

/-- Witness for C6: in the demo account, tearing down environment `proj-a`
deletes the key pair of its machine, while the key pair referenced by the
machine of environment `proj-b` is indeed not that one. -/
theorem teardown_ordering_witness :
    TeardownStep.deleteKeyPair 7 ∈ teardown sDemo "proj-a"
    ∧ machineB.keyPairId ≠ 7 :=
  ⟨by decide, (teardown_ordering sDemo "proj-a").2 7 (by decide) machineB
    (by decide) (by decide)⟩

/-- C7 as stated is refuted at a concrete input: after `unref` has disabled
debouncing, a `capture` call does not schedule a debounced flush — it starts
an immediate fire-and-forget flush instead (still without performing any
network send itself). -/
theorem capture_after_unref_counterexample :
    (capture (unref (initEmitter "mid-1" false)) "up").debounceScheduled
      = false
    ∧ (capture (unref (initEmitter "mid-1" false)) "up").immediateFlushPending
      = true
    ∧ (capture (unref (initEmitter "mid-1" false)) "up").sentRequests = [] :=
  ⟨rfl, rfl, rfl⟩

/-- C7 (amended): telemetry capture never blocks the caller on network
emission: a `capture` call only appends its event to the pending queue and
requests a flush — a debounced flush while debouncing is enabled, an
immediate fire-and-forget flush after `unref` has disabled debouncing — and
performs no network send itself; `identify` and `group` likewise never
perform a network send.  The send happens only when a flush runs (the
explicit flush, the debounce timer, or the requested fire-and-forget
flush). -/
theorem capture_never_blocks (s : EmitterState) (ev : String)
    (id : Option String) (pk : Bool) (gid : Option String) :
    (capture s ev).sentRequests = s.sentRequests
    ∧ (capture s ev).pendingEvents =
        s.pendingEvents ++ [⟨ev, s.machineId, EventSource.captureSrc⟩]
    ∧ (s.debounceDisabled = false → (capture s ev).debounceScheduled = true)
    ∧ (s.debounceDisabled = true →
        (capture s ev).immediateFlushPending = true)
    ∧ (identify s id pk).sentRequests = s.sentRequests
    ∧ (group s gid).sentRequests = s.sentRequests := by
  refine ⟨(pushEvent_fields s _).2.1, (pushEvent_fields s _).1, ?_, ?_,
    identify_sentRequests s id pk, group_sentRequests s gid⟩
  · intro h
    simp only [capture, pushEvent]
    simp [h]
  · intro h
    simp only [capture, pushEvent]
    simp [h]

/-- Witness for C7 (amended) at concrete inputs: on a fresh emitter a capture
sends nothing and schedules the debounced flush; after `unref` it requests
the immediate fire-and-forget flush. -/
theorem capture_never_blocks_witness :
    (capture (initEmitter "mid-2" false) "up").sentRequests
      = (initEmitter "mid-2" false).sentRequests
    ∧ (capture (initEmitter "mid-2" false) "up").debounceScheduled = true
    ∧ (capture (unref (initEmitter "mid-2" false)) "up").immediateFlushPending
        = true :=
  ⟨(capture_never_blocks (initEmitter "mid-2" false) "up" none false none).1,
   (capture_never_blocks (initEmitter "mid-2" false) "up" none false
      none).2.2.1 rfl,
   (capture_never_blocks (unref (initEmitter "mid-2" false)) "up" none false
      none).2.2.2.1 rfl⟩

/-- C8: the public `flush()` drains the queue: after it resolves the pending
queue is empty; when the queue was nonempty, exactly the events captured
before the call were submitted as one single batch; when the queue was
empty, no network request is made at all. -/
theorem flush_drains_queue (s : EmitterState) (ok : Bool) :
    (flushOp s ok).pendingEvents = []
    ∧ (s.pendingEvents ≠ [] →
        (flushOp s ok).sentRequests = s.sentRequests ++ [s.pendingEvents])
    ∧ (s.pendingEvents = [] →
        (flushOp s ok).sentRequests = s.sentRequests) := by
  by_cases h : s.pendingEvents = []
  · have he : ({ s with debounceScheduled := false } :
        EmitterState).pendingEvents = [] := h
    unfold flushOp
    rw [runFlush_empty _ ok he]
    exact ⟨h, fun hne => absurd h hne, fun _ => rfl⟩
  · rcases runFlush_nonempty { s with debounceScheduled := false } ok h
      with ⟨hp, hs, _⟩
    exact ⟨hp, fun _ => hs, fun he => absurd he h⟩

/-- Witness for C8: flushing an emitter holding one captured event empties
the queue and submits that event as a single batch; flushing a fresh emitter
makes no network request. -/
theorem flush_drains_queue_witness :
    (flushOp (capture (initEmitter "mid-3" false) "up") true).pendingEvents
      = []
    ∧ (flushOp (capture (initEmitter "mid-3" false) "up") true).sentRequests
      = (capture (initEmitter "mid-3" false) "up").sentRequests
        ++ [(capture (initEmitter "mid-3" false) "up").pendingEvents]
    ∧ (flushOp (initEmitter "mid-3" false) true).sentRequests
      = (initEmitter "mid-3" false).sentRequests :=
  ⟨(flush_drains_queue (capture (initEmitter "mid-3" false) "up") true).1,
   (flush_drains_queue (capture (initEmitter "mid-3" false) "up") true).2.1
     (by decide),
   (flush_drains_queue (initEmitter "mid-3" false) true).2.2 rfl⟩

/-- C9: along every sequence of telemetry operations, every event produced by
`capture` carries the original machine id as its `distinct_id`, even after
`identify` has changed the current distinct id; the events produced by
`identify` and `group` are the ones carrying the updated distinct id (a
given identify id becomes the current distinct id when it is truthy, i.e.
nonempty, matching the `if (id)` guard of the source; likewise `group`
pushes only for a truthy group identity). -/
theorem capture_events_keep_machine_id (mid : String) (debug : Bool)
    (ops : List TelemetryOp) :
    (∀ e ∈ allEvents (runOps (initEmitter mid debug) ops),
      e.src = EventSource.captureSrc → e.distinct_id = mid)
    ∧ (∀ s : EmitterState, ∀ ev : String,
        (capture s ev).pendingEvents =
          s.pendingEvents ++ [⟨ev, s.machineId, EventSource.captureSrc⟩])
    ∧ (∀ s : EmitterState, ∀ i : String, i ≠ s.distinctId → i ≠ "" →
        (identify s (some i) false).pendingEvents =
          s.pendingEvents ++ [⟨"$identify", i, EventSource.identifySrc⟩]
        ∧ (identify s (some i) false).distinctId = i)
    ∧ (∀ s : EmitterState, ∀ g : String, s.profileGroupId = some g → g ≠ "" →
        (group s none).pendingEvents =
          s.pendingEvents ++
            [⟨"$groupidentify", s.distinctId, EventSource.groupSrc⟩]) := by
  refine ⟨?_, ?_, ?_, ?_⟩
  · exact (runOps_capture_inv mid (initEmitter mid debug) ops rfl
      (by intro e he; simp [allEvents, initEmitter] at he)).2
  · intro s ev
    exact (pushEvent_fields s _).1
  · intro s i hne hi
    have hcond : ((some i != some s.distinctId) || false) = true := by
      simp [bne_iff_ne, hne]
    have htruthy : (i != "") = true := by
      simp [bne_iff_ne, hi]
    constructor
    · show (identify s (some i) false).pendingEvents = _
      simp only [identify]
      rw [if_pos htruthy, if_pos hcond]
      exact (pushEvent_fields s _).1
    · simp only [identify]
      rw [if_pos htruthy]
  · intro s g hg hgne
    have htruthy : (g != "") = true := by
      simp [bne_iff_ne, hgne]
    simp only [group, hg]
    rw [if_pos htruthy]
    exact (pushEvent_fields _ _).1

/-- Witness for C9: running identify (changing the distinct id to `user-1`)
and then capture on a fresh emitter yields a capture event still carrying
the machine id `mach-1`. -/
theorem capture_events_keep_machine_id_witness :
    (⟨"up", "mach-1", EventSource.captureSrc⟩ : TelemetryEvent) ∈
      allEvents (runOps (initEmitter "mach-1" false)
        [TelemetryOp.identifyOp (some "user-1") false,
         TelemetryOp.captureOp "up"])
    ∧ (⟨"up", "mach-1", EventSource.captureSrc⟩ :
        TelemetryEvent).distinct_id = "mach-1" :=
  ⟨by decide,
   (capture_events_keep_machine_id "mach-1" false
      [TelemetryOp.identifyOp (some "user-1") false,
       TelemetryOp.captureOp "up"]).1
     ⟨"up", "mach-1", EventSource.captureSrc⟩ (by decide) rfl⟩

/-- C10: a flush on a nonempty queue clears the queue at submission time —
before the network response arrives — and submits the batch exactly once:
whatever the outcome, the pending queue ends empty, nothing is re-queued on
failure, and the submitted requests are identical for a failed and a
successful response (failure is at most logged, never retried). -/
theorem flush_failure_no_retry (s : EmitterState) (ok : Bool)
    (h : s.pendingEvents ≠ []) :
    (flushStart s).1.pendingEvents = []
    ∧ (flushStart s).2 = some s.pendingEvents
    ∧ (runFlush s ok).pendingEvents = []
    ∧ (runFlush s ok).sentRequests = s.sentRequests ++ [s.pendingEvents]
    ∧ (runFlush s false).sentRequests = (runFlush s true).sentRequests := by
  have hne : s.pendingEvents.isEmpty = false := by
    simp [List.isEmpty_iff, h]
  have hfs : flushStart s =
      ({ s with
          pendingEvents := []
          sentRequests := s.sentRequests ++ [s.pendingEvents] },
        some s.pendingEvents) := by
    unfold flushStart
    simp [hne]
  refine ⟨?_, ?_, (runFlush_nonempty s ok h).1,
    (runFlush_nonempty s ok h).2.1, ?_⟩
  · rw [hfs]
  · rw [hfs]
  · rw [(runFlush_nonempty s false h).2.1, (runFlush_nonempty s true h).2.1]

/-- Witness for C10: on an emitter holding one captured event, a failed flush
still empties the queue and records the single submitted batch. -/
theorem flush_failure_no_retry_witness :
    (runFlush (capture (initEmitter "mid-4" true) "down") false).pendingEvents
      = []
    ∧ (runFlush (capture (initEmitter "mid-4" true) "down")
        false).sentRequests
      = (capture (initEmitter "mid-4" true) "down").sentRequests
        ++ [(capture (initEmitter "mid-4" true) "down").pendingEvents] :=
  ⟨(flush_failure_no_retry (capture (initEmitter "mid-4" true) "down") false
      (by decide)).2.2.1,
   (flush_failure_no_retry (capture (initEmitter "mid-4" true) "down") false
      (by decide)).2.2.2.1⟩

end Preevy
